import Mathlib

/-!
Verification of the GreenGrid microgrid simulator core
(`Simulator/src`: `Battery.py`, `Grid.py`, `EnergyManagementSystem.py`,
`Simulation.py`, plus the stochastic input models `Load.py`,
`CloudCoverage.py`, `Inverter.py`, `SolarPanel.py`).

The Python code works on floats; the embedding works over an arbitrary
linear ordered field `K` (instantiated at `ℚ` for executable witnesses and
at `ℝ` where the code's `math.sqrt` matters), with state-mutating methods
embedded as state-passing functions.
-/

namespace GreenGrid

/-! ## Rounding

`EnergyManagementSystem` rounds every output field with Python's
`round(x, 6)`, which rounds to the nearest multiple of `10⁻⁶` with ties
going to the even multiple (banker's rounding). -/

/-- Round to the nearest integer, ties to even: the idealized semantics of
Python's built-in `round` on a non-negative-exponent scale. -/
def roundHalfEven {K : Type} [LinearOrderedField K] [FloorRing K] (q : K) : ℤ :=
  let f := Int.floor q
  if q - f < 1/2 then f
  else if 1/2 < q - f then f + 1
  else if f % 2 = 0 then f else f + 1

/-- `round6 x` embeds Python's `round(x, 6)` as used on every field of the
EMS flow dictionaries. -/
def round6 {K : Type} [LinearOrderedField K] [FloorRing K] (x : K) : K :=
  ((roundHalfEven (x * 1000000) : ℤ) : K) / 1000000

theorem abs_roundHalfEven_sub_le {K : Type} [LinearOrderedField K] [FloorRing K]
    (q : K) : |(roundHalfEven q : K) - q| ≤ 1/2 := by
  have hfl : (Int.floor q : K) ≤ q := Int.floor_le q
  have hfu : q < (Int.floor q : K) + 1 := Int.lt_floor_add_one q
  simp only [roundHalfEven]
  split_ifs with h1 h2 h3 <;>
    rw [abs_le] <;> constructor <;> push_cast <;> linarith

theorem abs_round6_sub_le {K : Type} [LinearOrderedField K] [FloorRing K]
    (x : K) : |round6 x - x| ≤ 1/2000000 := by
  have h := abs_roundHalfEven_sub_le (x * 1000000)
  have h6 : (1000000 : K) > 0 := by norm_num
  have key : round6 x - x =
      ((roundHalfEven (x * 1000000) : K) - x * 1000000) / 1000000 := by
    unfold round6
    field_simp
    ring
  rw [key, abs_div, abs_of_pos h6,
    div_le_div_iff h6 (by norm_num : (0:K) < 2000000)]
  nlinarith [h]

theorem round6_zero {K : Type} [LinearOrderedField K] [FloorRing K] :
    round6 (0 : K) = 0 := by
  unfold round6 roundHalfEven
  norm_num

/-! ## Battery (`Simulator/src/Battery.py`)

State-passing embedding of the `Battery` class.  `charge` and `discharge`
return the Python return value paired with the updated battery. -/

/-- The fields set by `Battery.__init__`. -/
structure Battery (K : Type) where
  capacity_kwh : K
  efficiency : K
  min_soc : K
  energy_kwh : K
  min_energy_kwh : K
  one_way_efficiency : K

/-- `Battery.__init__(capacity_kwh, efficiency, min_soc)`.  Python sets
`_one_way_efficiency = math.sqrt(efficiency)`; the square root is passed
explicitly as `ow` so that the constructor stays polymorphic in `K`
(`Battery.initSqrt` below fixes `ow = Real.sqrt efficiency` over `ℝ`). -/
def Battery.init {K : Type} [LinearOrderedField K]
    (capacity_kwh efficiency min_soc ow : K) : Battery K :=
  { capacity_kwh := capacity_kwh
    efficiency := efficiency
    min_soc := min_soc
    energy_kwh := capacity_kwh * (1/2)
    min_energy_kwh := capacity_kwh * min_soc
    one_way_efficiency := ow }

/-- `Battery.__init__` over `ℝ` with the actual `math.sqrt`. -/
noncomputable def Battery.initSqrt (capacity_kwh efficiency min_soc : ℝ) :
    Battery ℝ :=
  Battery.init capacity_kwh efficiency min_soc (Real.sqrt efficiency)

/-- `Battery.charge(energy_kwh)`: returns the energy consumed from the
source and the updated battery. -/
def Battery.charge {K : Type} [LinearOrderedField K]
    (b : Battery K) (energy_kwh : K) : K × Battery K :=
  let usable_energy := energy_kwh * b.one_way_efficiency
  let space_available := b.capacity_kwh - b.energy_kwh
  let energy_to_store := min usable_energy space_available
  let energy_consumed_from_source := energy_to_store / b.one_way_efficiency
  (energy_consumed_from_source,
   { b with energy_kwh := b.energy_kwh + energy_to_store })

/-- `Battery.discharge(energy_kwh)`: returns the energy actually supplied
and the updated battery. -/
def Battery.discharge {K : Type} [LinearOrderedField K]
    (b : Battery K) (energy_kwh : K) : K × Battery K :=
  let required_energy := energy_kwh / b.one_way_efficiency
  let max_available := b.energy_kwh - b.min_energy_kwh
  let actual_extracted := min required_energy max_available
  let supplied := actual_extracted * b.one_way_efficiency
  (supplied, { b with energy_kwh := b.energy_kwh - actual_extracted })

/-- `Battery.get_soc()`. -/
def Battery.get_soc {K : Type} [LinearOrderedField K] (b : Battery K) : K :=
  b.energy_kwh / b.capacity_kwh * 100

/-! ## Grid (`Simulator/src/Grid.py`) -/

/-- The `Grid` class: price/limit configuration plus the four running
counters. -/
structure Grid (K : Type) where
  import_cost_per_kwh : K
  export_revenue_per_kwh : K
  export_limit_kw : K
  total_energy_imported_kwh : K
  total_energy_exported_kwh : K
  total_import_cost : K
  total_export_revenue : K

/-- `Grid.__init__(import_cost_per_kwh, export_revenue_per_kwh,
export_limit_kw)`: counters start at zero. -/
def Grid.init {K : Type} [LinearOrderedField K]
    (import_cost_per_kwh export_revenue_per_kwh export_limit_kw : K) : Grid K :=
  { import_cost_per_kwh := import_cost_per_kwh
    export_revenue_per_kwh := export_revenue_per_kwh
    export_limit_kw := export_limit_kw
    total_energy_imported_kwh := 0
    total_energy_exported_kwh := 0
    total_import_cost := 0
    total_export_revenue := 0 }

/-- `Grid.import_energy(power_kw, time_step_hours)`: returns the cost of
the import and the updated grid.  The import is unconditionally accepted. -/
def Grid.import_energy {K : Type} [LinearOrderedField K]
    (g : Grid K) (power_kw time_step_hours : K) : K × Grid K :=
  let energy_kwh := power_kw * time_step_hours
  let cost := energy_kwh * g.import_cost_per_kwh
  (cost,
   { g with
      total_energy_imported_kwh := g.total_energy_imported_kwh + energy_kwh
      total_import_cost := g.total_import_cost + cost })

/-- `Grid.export_energy(power_kw, time_step_hours)`: caps the POWER at the
export limit, accumulates energy and revenue, and returns the actual power
exported together with the updated grid. -/
def Grid.export_energy {K : Type} [LinearOrderedField K]
    (g : Grid K) (power_kw time_step_hours : K) : K × Grid K :=
  let actual_power_kw := min power_kw g.export_limit_kw
  let energy_kwh := actual_power_kw * time_step_hours
  let revenue := energy_kwh * g.export_revenue_per_kwh
  (actual_power_kw,
   { g with
      total_energy_exported_kwh := g.total_energy_exported_kwh + energy_kwh
      total_export_revenue := g.total_export_revenue + revenue })

/-! ## EnergyManagementSystem (`Simulator/src/EnergyManagementSystem.py`)

Each `_xxx_priority` method is a state-passing function returning the flow
dictionary together with the updated battery and grid.  `distribute_energy`
dispatches on the strategy string; the `ValueError` raised on an unknown
strategy is embedded as a `none` flow result with the battery and grid
returned unchanged (the Python method raises before touching either). -/

/-- The flow dictionary returned by every strategy. -/
structure Flows (K : Type) where
  solar_to_load : K
  solar_to_battery : K
  solar_to_grid : K
  battery_to_load : K
  grid_to_load : K
  unmet_load : K
  curtailed : K

/-- The shared `return { 'solar_to_load': round(..., 6), ... }` epilogue of
the three strategies: every field is rounded to 6 decimals and
`unmet_load` is set to `grid_to_load`. -/
def mkFlows {K : Type} [LinearOrderedField K] [FloorRing K]
    (stl stb stg btl gtl curt : K) : Flows K :=
  { solar_to_load := round6 stl
    solar_to_battery := round6 stb
    solar_to_grid := round6 stg
    battery_to_load := round6 btl
    grid_to_load := round6 gtl
    unmet_load := round6 gtl
    curtailed := round6 curt }

/-- `EnergyManagementSystem._load_priority`. -/
def loadPriority {K : Type} [LinearOrderedField K] [FloorRing K]
    (solar_kw load_kw : K) (b : Battery K) (g : Grid K)
    (time_step_hours : K) : Flows K × Battery K × Grid K :=
  if load_kw ≤ solar_kw then
    -- CASE 1: Solar >= Load (excess available)
    let solar_to_load := load_kw
    let excess0 := solar_kw - load_kw
    -- Step 2: offer excess to the battery
    let step2 : K × K × Battery K :=
      if 0 < excess0 then
        let offered_energy := excess0 * time_step_hours
        let cr := b.charge offered_energy
        (cr.1 / time_step_hours,
         (offered_energy - cr.1) / time_step_hours, cr.2)
      else (0, excess0, b)
    let solar_to_battery := step2.1
    let excess1 := step2.2.1
    let b1 := step2.2.2
    -- Step 3: export remaining excess to the grid
    let step3 : K × K × Grid K :=
      if 0 < excess1 then
        let er := g.export_energy excess1 time_step_hours
        (er.1, if er.1 < excess1 then excess1 - er.1 else 0, er.2)
      else (0, 0, g)
    let solar_to_grid := step3.1
    let curtailed := step3.2.1
    let g1 := step3.2.2
    (mkFlows solar_to_load solar_to_battery solar_to_grid 0 0 curtailed, b1, g1)
  else
    -- CASE 2: Solar < Load (deficit)
    let solar_to_load := solar_kw
    let deficit0 := load_kw - solar_kw
    -- Step 2: cover the deficit with the battery
    let step2 : K × K × Battery K :=
      if 0 < deficit0 then
        let dr := b.discharge (deficit0 * time_step_hours)
        let discharged_power := dr.1 / time_step_hours
        (discharged_power, deficit0 - discharged_power, dr.2)
      else (0, deficit0, b)
    let battery_to_load := step2.1
    let deficit1 := step2.2.1
    let b1 := step2.2.2
    -- Step 3: import from the grid if still needed
    let step3 : K × Grid K :=
      if 0 < deficit1 then (deficit1, (g.import_energy deficit1 time_step_hours).2)
      else (0, g)
    let grid_to_load := step3.1
    let g1 := step3.2
    (mkFlows solar_to_load 0 0 battery_to_load grid_to_load 0, b1, g1)

/-- `EnergyManagementSystem._charge_priority`. -/
def chargePriority {K : Type} [LinearOrderedField K] [FloorRing K]
    (solar_kw load_kw : K) (b : Battery K) (g : Grid K)
    (time_step_hours : K) : Flows K × Battery K × Grid K :=
  if load_kw ≤ solar_kw then
    -- CASE 1: Solar >= Load: charge the battery FIRST with all solar
    let offered_energy := solar_kw * time_step_hours
    let cr := b.charge offered_energy
    let solar_to_battery := cr.1 / time_step_hours
    let solar_remaining := (offered_energy - cr.1) / time_step_hours
    let b1 := cr.2
    if load_kw ≤ solar_remaining then
      -- remaining solar covers the load completely
      let solar_to_load := load_kw
      let excess := solar_remaining - load_kw
      let step3 : K × K × Grid K :=
        if 0 < excess then
          let er := g.export_energy excess time_step_hours
          (er.1, if er.1 < excess then excess - er.1 else 0, er.2)
        else (0, 0, g)
      (mkFlows solar_to_load solar_to_battery step3.1 0 0 step3.2.1,
       b1, step3.2.2)
    else
      -- remaining solar does not cover the load: import the deficit
      let solar_to_load := solar_remaining
      let deficit := load_kw - solar_remaining
      let g1 := (g.import_energy deficit time_step_hours).2
      (mkFlows solar_to_load solar_to_battery 0 0 deficit 0, b1, g1)
  else
    -- CASE 2: Solar < Load: no charging when already in deficit
    let solar_to_load := solar_kw
    let deficit0 := load_kw - solar_kw
    let step2 : K × K × Battery K :=
      if 0 < deficit0 then
        let dr := b.discharge (deficit0 * time_step_hours)
        let discharged_power := dr.1 / time_step_hours
        (discharged_power, deficit0 - discharged_power, dr.2)
      else (0, deficit0, b)
    let battery_to_load := step2.1
    let deficit1 := step2.2.1
    let b1 := step2.2.2
    let step3 : K × Grid K :=
      if 0 < deficit1 then (deficit1, (g.import_energy deficit1 time_step_hours).2)
      else (0, g)
    (mkFlows solar_to_load 0 0 battery_to_load step3.1 0, b1, step3.2)

/-- `EnergyManagementSystem._produce_priority`. -/
def producePriority {K : Type} [LinearOrderedField K] [FloorRing K]
    (solar_kw load_kw : K) (b : Battery K) (g : Grid K)
    (time_step_hours : K) : Flows K × Battery K × Grid K :=
  -- Step 1: export ALL solar to the grid (up to the limit)
  let er := g.export_energy solar_kw time_step_hours
  let solar_to_grid := er.1
  let solar_remaining0 := solar_kw - er.1
  let g1 := er.2
  -- Step 2: charge the battery with the remaining solar
  let step2 : K × K × Battery K :=
    if 0 < solar_remaining0 then
      let offered_energy := solar_remaining0 * time_step_hours
      let cr := b.charge offered_energy
      (cr.1 / time_step_hours,
       (offered_energy - cr.1) / time_step_hours, cr.2)
    else (0, solar_remaining0, b)
  let solar_to_battery := step2.1
  let solar_remaining1 := step2.2.1
  let b1 := step2.2.2
  -- Step 3: power the house with the remaining solar
  let step3 : K × K × K :=
    if 0 < solar_remaining1 then
      let solar_to_load := min solar_remaining1 load_kw
      (solar_to_load, load_kw - solar_to_load,
       if solar_to_load < solar_remaining1 then solar_remaining1 - solar_to_load
       else 0)
    else (0, load_kw, 0)
  let solar_to_load := step3.1
  let deficit0 := step3.2.1
  let curtailed := step3.2.2
  -- Step 4: cover the house deficit from the battery
  let step4 : K × K × Battery K :=
    if 0 < deficit0 then
      let dr := b1.discharge (deficit0 * time_step_hours)
      let discharged_power := dr.1 / time_step_hours
      (discharged_power, deficit0 - discharged_power, dr.2)
    else (0, deficit0, b1)
  let battery_to_load := step4.1
  let deficit1 := step4.2.1
  let b2 := step4.2.2
  -- Step 5: import from the grid if still needed
  let step5 : K × Grid K :=
    if 0 < deficit1 then (deficit1, (g1.import_energy deficit1 time_step_hours).2)
    else (0, g1)
  (mkFlows solar_to_load solar_to_battery solar_to_grid battery_to_load
    step5.1 curtailed, b2, step5.2)

/-- `EnergyManagementSystem.distribute_energy`: dispatch on the strategy
string.  An unknown strategy raises `ValueError` in Python, embedded as a
`none` flow result with battery and grid unchanged. -/
def distribute_energy {K : Type} [LinearOrderedField K] [FloorRing K]
    (strategy : String) (solar_kw load_kw : K) (b : Battery K) (g : Grid K)
    (time_step_hours : K) : Option (Flows K) × Battery K × Grid K :=
  if strategy = "LOAD_PRIORITY" then
    let r := loadPriority solar_kw load_kw b g time_step_hours
    (some r.1, r.2)
  else if strategy = "CHARGE_PRIORITY" then
    let r := chargePriority solar_kw load_kw b g time_step_hours
    (some r.1, r.2)
  else if strategy = "PRODUCE_PRIORITY" then
    let r := producePriority solar_kw load_kw b g time_step_hours
    (some r.1, r.2)
  else
    (none, b, g)

/-! ## Basic facts about the embedded operations -/

theorem round6_le {K : Type} [LinearOrderedField K] [FloorRing K] (x : K) :
    round6 x ≤ x + 1/2000000 := by
  have h := abs_le.mp (abs_round6_sub_le x)
  linarith [h.2]

theorem le_round6 {K : Type} [LinearOrderedField K] [FloorRing K] (x : K) :
    x - 1/2000000 ≤ round6 x := by
  have h := abs_le.mp (abs_round6_sub_le x)
  linarith [h.1]

theorem sum_round6_le {K : Type} [LinearOrderedField K] [FloorRing K]
    {a b c d s : K} (h : a + b + c + d ≤ s) :
    round6 a + round6 b + round6 c + round6 d ≤ s + 2/1000000 := by
  have ha := round6_le a
  have hb := round6_le b
  have hc := round6_le c
  have hd := round6_le d
  linarith

theorem le_sum_round6 {K : Type} [LinearOrderedField K] [FloorRing K]
    {a b c s : K} (h : s ≤ a + b + c) :
    s - 2/1000000 ≤ round6 a + round6 b + round6 c := by
  have ha := le_round6 a
  have hb := le_round6 b
  have hc := le_round6 c
  linarith

/-- The energy consumed from the source by `Battery.charge` never exceeds
the offered energy (capacity may reject part, efficiency may not inflate). -/
theorem charge_fst_le {K : Type} [LinearOrderedField K]
    (b : Battery K) (e : K) (how : 0 < b.one_way_efficiency) :
    (b.charge e).1 ≤ e := by
  unfold Battery.charge
  dsimp only
  rw [div_le_iff how]
  exact le_trans (min_le_left _ _) (le_of_eq rfl)

/-- The energy supplied by `Battery.discharge` never exceeds the request. -/
theorem discharge_fst_le {K : Type} [LinearOrderedField K]
    (b : Battery K) (e : K) (how : 0 < b.one_way_efficiency) :
    (b.discharge e).1 ≤ e := by
  unfold Battery.discharge
  dsimp only
  calc min (e / b.one_way_efficiency) (b.energy_kwh - b.min_energy_kwh) *
        b.one_way_efficiency
      ≤ e / b.one_way_efficiency * b.one_way_efficiency :=
        mul_le_mul_of_nonneg_right (min_le_left _ _) (le_of_lt how)
    _ = e := div_mul_cancel₀ e (ne_of_gt how)

/-- `distribute_energy` with the `LOAD_PRIORITY` strategy runs
`_load_priority`. -/
theorem distribute_energy_load {K : Type} [LinearOrderedField K] [FloorRing K]
    (solar_kw load_kw : K) (b : Battery K) (g : Grid K) (dt : K) :
    distribute_energy "LOAD_PRIORITY" solar_kw load_kw b g dt =
      (some (loadPriority solar_kw load_kw b g dt).1,
       (loadPriority solar_kw load_kw b g dt).2) := rfl

/-- `distribute_energy` with the `CHARGE_PRIORITY` strategy runs
`_charge_priority`. -/
theorem distribute_energy_charge {K : Type} [LinearOrderedField K] [FloorRing K]
    (solar_kw load_kw : K) (b : Battery K) (g : Grid K) (dt : K) :
    distribute_energy "CHARGE_PRIORITY" solar_kw load_kw b g dt =
      (some (chargePriority solar_kw load_kw b g dt).1,
       (chargePriority solar_kw load_kw b g dt).2) := rfl

/-- `distribute_energy` with the `PRODUCE_PRIORITY` strategy runs
`_produce_priority`. -/
theorem distribute_energy_produce {K : Type} [LinearOrderedField K] [FloorRing K]
    (solar_kw load_kw : K) (b : Battery K) (g : Grid K) (dt : K) :
    distribute_energy "PRODUCE_PRIORITY" solar_kw load_kw b g dt =
      (some (producePriority solar_kw load_kw b g dt).1,
       (producePriority solar_kw load_kw b g dt).2) := rfl

/-! ## Claim C7: the export cap -/

/-- Claim C7: for every offered power above the configured export limit and
every time step duration, `Grid.export_energy` returns exactly
`export_limit_kw` as the actual exported power, never more; the cap is a
power cap reapplied on every call and independent of the duration. -/
theorem C7_export_capped_at_limit {K : Type} [LinearOrderedField K]
    (g : Grid K) (power_kw dt_hours : K)
    (h : g.export_limit_kw < power_kw) (hdt : 0 < dt_hours) :
    (g.export_energy power_kw dt_hours).1 = g.export_limit_kw := by
  unfold Grid.export_energy
  exact min_eq_right (le_of_lt h)

/-- Witness for C7 at a concrete grid: offering 25 kW against a 20 kW
limit exports exactly 20 kW. -/
theorem C7_export_capped_at_limit_witness :
    ((Grid.init (3/400 : ℚ) (9/1000) 20).export_energy 25 (1/4)).1 =
      (Grid.init (3/400 : ℚ) (9/1000) 20).export_limit_kw :=
  C7_export_capped_at_limit (Grid.init (3/400 : ℚ) (9/1000) 20) 25 (1/4)
    (by norm_num [Grid.init]) (by norm_num)

/-! ## Claim C9: unknown strategy fails fast -/

/-- Claim C9: for every strategy string other than the three recognized
names, `distribute_energy` raises (modelled as a `none` flow result) and
leaves the battery and grid states unchanged. -/
theorem C9_unknown_strategy_raises {K : Type} [LinearOrderedField K]
    [FloorRing K] (strategy : String) (solar_kw load_kw : K)
    (b : Battery K) (g : Grid K) (dt : K)
    (hs : strategy ∉ ["LOAD_PRIORITY", "CHARGE_PRIORITY", "PRODUCE_PRIORITY"]) :
    distribute_energy strategy solar_kw load_kw b g dt = (none, b, g) := by
  simp only [List.mem_cons, List.mem_singleton, not_or] at hs
  obtain ⟨h1, h2, h3, -⟩ := hs
  simp only [distribute_energy, if_neg h1, if_neg h2, if_neg h3]

/-- Witness for C9: the strategy string `BALANCED` is rejected with the
battery and grid untouched. -/
theorem C9_unknown_strategy_raises_witness :
    distribute_energy "BALANCED" (5 : ℚ) 2
        (Battery.init (27/2) (9/16) (1/20) (3/4)) (Grid.init (3/400) (9/1000) 20)
        1 =
      (none, Battery.init (27/2) (9/16) (1/20) (3/4),
       Grid.init (3/400) (9/1000) 20) :=
  C9_unknown_strategy_raises "BALANCED" 5 2
    (Battery.init (27/2) (9/16) (1/20) (3/4)) (Grid.init (3/400) (9/1000) 20)
    1 (by decide)

/-! ## Claim C10: LOAD_PRIORITY never imports when solar covers load -/

/-- Claim C10: for the `LOAD_PRIORITY` strategy with `solar_kw >= load_kw`,
`distribute_energy` never imports from the grid: `grid_to_load` and
`unmet_load` are 0 and the grid's cumulative imported-energy and
import-cost counters are unchanged (only the export side may change). -/
theorem C10_load_priority_surplus_no_import {K : Type} [LinearOrderedField K]
    [FloorRing K] (solar_kw load_kw : K) (b : Battery K) (g : Grid K)
    (dt : K) (f : Flows K) (b' : Battery K) (g' : Grid K)
    (hsl : load_kw ≤ solar_kw)
    (h : distribute_energy "LOAD_PRIORITY" solar_kw load_kw b g dt =
      (some f, b', g')) :
    f.grid_to_load = 0 ∧ f.unmet_load = 0 ∧
      g'.total_energy_imported_kwh = g.total_energy_imported_kwh ∧
      g'.total_import_cost = g.total_import_cost := by
  rw [distribute_energy_load] at h
  simp only [Prod.mk.injEq, Option.some.injEq] at h
  obtain ⟨hf, hrest⟩ := h
  subst hf
  have hg' : g' = (loadPriority solar_kw load_kw b g dt).2.2 := by rw [hrest]
  subst hg'
  unfold loadPriority
  rw [if_pos hsl]
  dsimp only
  split_ifs with h1 h2 <;>
    simp [mkFlows, round6_zero, Grid.export_energy]

/-- Witness for C10 at solar 10 kW, load 3 kW. -/
theorem C10_load_priority_surplus_no_import_witness :
    ((loadPriority (10:ℚ) 3 (Battery.init (27/2) (9/16) (1/20) (3/4))
        (Grid.init (3/400) (9/1000) 20) 1).1).grid_to_load = 0 ∧
    ((loadPriority (10:ℚ) 3 (Battery.init (27/2) (9/16) (1/20) (3/4))
        (Grid.init (3/400) (9/1000) 20) 1).1).unmet_load = 0 ∧
    ((loadPriority (10:ℚ) 3 (Battery.init (27/2) (9/16) (1/20) (3/4))
        (Grid.init (3/400) (9/1000) 20) 1).2.2).total_energy_imported_kwh =
      (Grid.init (3/400 : ℚ) (9/1000) 20).total_energy_imported_kwh ∧
    ((loadPriority (10:ℚ) 3 (Battery.init (27/2) (9/16) (1/20) (3/4))
        (Grid.init (3/400) (9/1000) 20) 1).2.2).total_import_cost =
      (Grid.init (3/400 : ℚ) (9/1000) 20).total_import_cost :=
  C10_load_priority_surplus_no_import 10 3
    (Battery.init (27/2) (9/16) (1/20) (3/4)) (Grid.init (3/400) (9/1000) 20)
    1 _ _ _ (by norm_num) rfl

/-! ## Claim C6: the two deficit branches coincide -/

/-- Claim C6: with `solar_kw < load_kw` and identical starting battery and
grid states, `CHARGE_PRIORITY` returns exactly the same flow breakdown and
final battery and grid states as `LOAD_PRIORITY` (no charging is attempted
in deficit). -/
theorem C6_charge_equals_load_in_deficit {K : Type} [LinearOrderedField K]
    [FloorRing K] (solar_kw load_kw : K) (b : Battery K) (g : Grid K)
    (dt : K) (hsl : solar_kw < load_kw) :
    distribute_energy "CHARGE_PRIORITY" solar_kw load_kw b g dt =
      distribute_energy "LOAD_PRIORITY" solar_kw load_kw b g dt := by
  rw [distribute_energy_load, distribute_energy_charge]
  have h : ¬ load_kw ≤ solar_kw := not_le.mpr hsl
  unfold loadPriority chargePriority
  rw [if_neg h, if_neg h]

/-- Witness for C6 at solar 2 kW, load 5 kW. -/
theorem C6_charge_equals_load_in_deficit_witness :
    distribute_energy "CHARGE_PRIORITY" (2:ℚ) 5
        (Battery.init (27/2) (9/16) (1/20) (3/4))
        (Grid.init (3/400) (9/1000) 20) 1 =
      distribute_energy "LOAD_PRIORITY" (2:ℚ) 5
        (Battery.init (27/2) (9/16) (1/20) (3/4))
        (Grid.init (3/400) (9/1000) 20) 1 :=
  C6_charge_equals_load_in_deficit 2 5
    (Battery.init (27/2) (9/16) (1/20) (3/4)) (Grid.init (3/400) (9/1000) 20)
    1 (by norm_num)

/-! ## Claim C5: CHARGE_PRIORITY surplus branch -/

/-- Claim C5: for `CHARGE_PRIORITY` with `solar_kw >= load_kw`,
`distribute_energy` offers all solar to the battery first
(`solar_to_battery` reports the consumed power of `charge(solar_kw*dt)`),
never discharges the battery (`battery_to_load = 0`, stored energy does
not decrease), and imports exactly the remaining load deficit from the
grid, even when the battery could have covered it. -/
theorem C5_charge_priority_surplus {K : Type} [LinearOrderedField K]
    [FloorRing K] (solar_kw load_kw : K) (b : Battery K) (g : Grid K)
    (dt : K) (f : Flows K) (b' : Battery K) (g' : Grid K)
    (hsl : load_kw ≤ solar_kw) (hsolar : 0 ≤ solar_kw) (hdt : 0 < dt)
    (how : 0 < b.one_way_efficiency) (hcap : b.energy_kwh ≤ b.capacity_kwh)
    (h : distribute_energy "CHARGE_PRIORITY" solar_kw load_kw b g dt =
      (some f, b', g')) :
    f.battery_to_load = 0 ∧
    f.solar_to_battery = round6 ((b.charge (solar_kw * dt)).1 / dt) ∧
    b.energy_kwh ≤ b'.energy_kwh ∧
    f.grid_to_load =
      round6 (max (load_kw - (solar_kw * dt - (b.charge (solar_kw * dt)).1) / dt)
        0) := by
  rw [distribute_energy_charge] at h
  simp only [Prod.mk.injEq, Option.some.injEq] at h
  obtain ⟨hf, hrest⟩ := h
  subst hf
  have hb' : b' = (chargePriority solar_kw load_kw b g dt).2.1 := by rw [hrest]
  subst hb'
  have hstore : (0:K) ≤
      min (solar_kw * dt * b.one_way_efficiency) (b.capacity_kwh - b.energy_kwh) :=
    le_min (mul_nonneg (mul_nonneg hsolar (le_of_lt hdt)) (le_of_lt how))
      (by linarith)
  have henergy : b.energy_kwh ≤ ((b.charge (solar_kw * dt)).2).energy_kwh := by
    simp only [Battery.charge]
    exact le_add_of_nonneg_right hstore
  unfold chargePriority
  rw [if_pos hsl]
  dsimp only
  split_ifs with h2 h3 h4
  · exact ⟨round6_zero, rfl, henergy,
      by rw [max_eq_right (sub_nonpos.mpr h2)]; rfl⟩
  · exact ⟨round6_zero, rfl, henergy,
      by rw [max_eq_right (sub_nonpos.mpr h2)]; rfl⟩
  · exact ⟨round6_zero, rfl, henergy,
      by rw [max_eq_right (sub_nonpos.mpr h2)]; rfl⟩
  · exact ⟨round6_zero, rfl, henergy,
      by rw [max_eq_left (le_of_lt (sub_pos.mpr (not_le.mp h2)))]; rfl⟩

/-- Witness for C5 at solar 10 kW, load 3 kW, dt 1 h. -/
theorem C5_charge_priority_surplus_witness :
    ((chargePriority (10:ℚ) 3 (Battery.init (27/2) (9/16) (1/20) (3/4))
        (Grid.init (3/400) (9/1000) 20) 1).1).battery_to_load = 0 ∧
    ((chargePriority (10:ℚ) 3 (Battery.init (27/2) (9/16) (1/20) (3/4))
        (Grid.init (3/400) (9/1000) 20) 1).1).solar_to_battery =
      round6 (((Battery.init (27/2) (9/16) (1/20) (3/4) : Battery ℚ).charge
        (10 * 1)).1 / 1) ∧
    (Battery.init (27/2) (9/16) (1/20) (3/4) : Battery ℚ).energy_kwh ≤
      ((chargePriority (10:ℚ) 3 (Battery.init (27/2) (9/16) (1/20) (3/4))
        (Grid.init (3/400) (9/1000) 20) 1).2.1).energy_kwh ∧
    ((chargePriority (10:ℚ) 3 (Battery.init (27/2) (9/16) (1/20) (3/4))
        (Grid.init (3/400) (9/1000) 20) 1).1).grid_to_load =
      round6 (max (3 - (10 * 1 -
        ((Battery.init (27/2) (9/16) (1/20) (3/4) : Battery ℚ).charge
          (10 * 1)).1) / 1) 0) :=
  C5_charge_priority_surplus 10 3 (Battery.init (27/2) (9/16) (1/20) (3/4))
    (Grid.init (3/400) (9/1000) 20) 1 _ _ _ (by norm_num) (by norm_num)
    (by norm_num) (by norm_num [Battery.init]) (by norm_num [Battery.init])
    rfl

/-! ## Claim C2: battery bounds invariant -/

/-- A single battery API call with its argument. -/
inductive BatteryOp (K : Type) where
  | charge (energy_kwh : K)
  | discharge (energy_kwh : K)

/-- The argument of a battery call. -/
def BatteryOp.arg {K : Type} : BatteryOp K → K
  | .charge e => e
  | .discharge e => e

/-- Run one battery call, keeping only the mutated state. -/
def applyOp {K : Type} [LinearOrderedField K] (b : Battery K) :
    BatteryOp K → Battery K
  | .charge e => (b.charge e).2
  | .discharge e => (b.discharge e).2

/-- Run a finite sequence of battery calls. -/
def applyOps {K : Type} [LinearOrderedField K] (b : Battery K)
    (ops : List (BatteryOp K)) : Battery K :=
  ops.foldl applyOp b

/-- `charge` and `discharge` do not touch the configuration fields. -/
theorem applyOp_config {K : Type} [LinearOrderedField K] (b : Battery K)
    (op : BatteryOp K) :
    (applyOp b op).min_energy_kwh = b.min_energy_kwh ∧
    (applyOp b op).capacity_kwh = b.capacity_kwh ∧
    (applyOp b op).one_way_efficiency = b.one_way_efficiency := by
  cases op <;> exact ⟨rfl, rfl, rfl⟩

/-- One battery call with a non-negative argument keeps the stored energy
within `[min_energy_kwh, capacity_kwh]`. -/
theorem applyOp_bounds {K : Type} [LinearOrderedField K] (b : Battery K)
    (op : BatteryOp K) (how : 0 < b.one_way_efficiency) (harg : 0 ≤ op.arg)
    (h1 : b.min_energy_kwh ≤ b.energy_kwh) (h2 : b.energy_kwh ≤ b.capacity_kwh) :
    b.min_energy_kwh ≤ (applyOp b op).energy_kwh ∧
      (applyOp b op).energy_kwh ≤ b.capacity_kwh := by
  cases op with
  | charge e =>
    have harg' : (0:K) ≤ e := harg
    simp only [applyOp, Battery.charge]
    constructor
    · have : (0:K) ≤ min (e * b.one_way_efficiency)
          (b.capacity_kwh - b.energy_kwh) :=
        le_min (mul_nonneg harg' (le_of_lt how)) (by linarith)
      linarith
    · have : min (e * b.one_way_efficiency) (b.capacity_kwh - b.energy_kwh) ≤
          b.capacity_kwh - b.energy_kwh := min_le_right _ _
      linarith
  | discharge e =>
    have harg' : (0:K) ≤ e := harg
    simp only [applyOp, Battery.discharge]
    constructor
    · have : min (e / b.one_way_efficiency) (b.energy_kwh - b.min_energy_kwh) ≤
          b.energy_kwh - b.min_energy_kwh := min_le_right _ _
      linarith
    · have : (0:K) ≤ min (e / b.one_way_efficiency)
          (b.energy_kwh - b.min_energy_kwh) :=
        le_min (div_nonneg harg' (le_of_lt how)) (by linarith)
      linarith

/-- Any sequence of non-negative battery calls preserves the bounds
invariant. -/
theorem applyOps_bounds {K : Type} [LinearOrderedField K]
    (ops : List (BatteryOp K)) :
    ∀ b : Battery K, 0 < b.one_way_efficiency →
      (∀ op ∈ ops, 0 ≤ op.arg) →
      b.min_energy_kwh ≤ b.energy_kwh → b.energy_kwh ≤ b.capacity_kwh →
      b.min_energy_kwh ≤ (applyOps b ops).energy_kwh ∧
        (applyOps b ops).energy_kwh ≤ b.capacity_kwh ∧
        (applyOps b ops).min_energy_kwh = b.min_energy_kwh ∧
        (applyOps b ops).capacity_kwh = b.capacity_kwh := by
  induction ops with
  | nil => intro b _ _ h1 h2; exact ⟨h1, h2, rfl, rfl⟩
  | cons op rest ih =>
    intro b how hargs h1 h2
    obtain ⟨hmin, hcap, hone⟩ := applyOp_config b op
    have hop := applyOp_bounds b op how (hargs op (List.mem_cons_self op rest))
      h1 h2
    have ihres := ih (applyOp b op) (by rw [hone]; exact how)
      (fun o ho => hargs o (List.mem_cons_of_mem op ho))
      (by rw [hmin]; exact hop.1) (by rw [hcap]; exact hop.2)
    have hfold : applyOps b (op :: rest) = applyOps (applyOp b op) rest := rfl
    rw [hfold]
    refine ⟨?_, ?_, ?_, ?_⟩
    · rw [← hmin]; exact ihres.1
    · rw [← hcap]; exact ihres.2.1
    · rw [ihres.2.2.1]; exact hmin
    · rw [ihres.2.2.2]; exact hcap

/-- Claim C2: for a battery created with positive capacity, efficiency in
`(0,1]` (with `ow` its positive square root, as computed by `__init__`)
and `min_soc` in `[0, 1/2]` — so the initial 50% charge is within bounds —
every finite sequence of `charge`/`discharge` calls with non-negative
arguments preserves `min_energy_kwh ≤ stored energy ≤ capacity_kwh`. -/
theorem C2_battery_bounds_invariant {K : Type} [LinearOrderedField K]
    (capacity efficiency min_soc ow : K) (ops : List (BatteryOp K))
    (hcap : 0 < capacity) (heff0 : 0 < efficiency) (heff1 : efficiency ≤ 1)
    (how0 : 0 < ow) (how2 : ow * ow = efficiency)
    (hsoc0 : 0 ≤ min_soc) (hsoc1 : min_soc ≤ 1/2)
    (hargs : ∀ op ∈ ops, 0 ≤ op.arg) :
    (applyOps (Battery.init capacity efficiency min_soc ow) ops).min_energy_kwh ≤
      (applyOps (Battery.init capacity efficiency min_soc ow) ops).energy_kwh ∧
    (applyOps (Battery.init capacity efficiency min_soc ow) ops).energy_kwh ≤
      (applyOps (Battery.init capacity efficiency min_soc ow) ops).capacity_kwh := by
  have h1 : (Battery.init capacity efficiency min_soc ow).min_energy_kwh ≤
      (Battery.init capacity efficiency min_soc ow).energy_kwh := by
    simp only [Battery.init]
    nlinarith
  have h2 : (Battery.init capacity efficiency min_soc ow).energy_kwh ≤
      (Battery.init capacity efficiency min_soc ow).capacity_kwh := by
    simp only [Battery.init]
    nlinarith
  have hres := applyOps_bounds ops (Battery.init capacity efficiency min_soc ow)
    how0 hargs h1 h2
  refine ⟨?_, ?_⟩
  · rw [hres.2.2.1]; exact hres.1
  · rw [hres.2.2.2]; exact hres.2.1

/-- Witness for C2: capacity 2 kWh, efficiency 9/16 (so `√` = 3/4),
min_soc 1/4, and a sequence that overcharges and overdischarges. -/
theorem C2_battery_bounds_invariant_witness :
    (applyOps (Battery.init (2:ℚ) (9/16) (1/4) (3/4))
        [BatteryOp.charge 1, BatteryOp.discharge 5, BatteryOp.charge 100,
         BatteryOp.discharge 0]).min_energy_kwh ≤
      (applyOps (Battery.init (2:ℚ) (9/16) (1/4) (3/4))
        [BatteryOp.charge 1, BatteryOp.discharge 5, BatteryOp.charge 100,
         BatteryOp.discharge 0]).energy_kwh ∧
    (applyOps (Battery.init (2:ℚ) (9/16) (1/4) (3/4))
        [BatteryOp.charge 1, BatteryOp.discharge 5, BatteryOp.charge 100,
         BatteryOp.discharge 0]).energy_kwh ≤
      (applyOps (Battery.init (2:ℚ) (9/16) (1/4) (3/4))
        [BatteryOp.charge 1, BatteryOp.discharge 5, BatteryOp.charge 100,
         BatteryOp.discharge 0]).capacity_kwh :=
  C2_battery_bounds_invariant 2 (9/16) (1/4) (3/4)
    [BatteryOp.charge 1, BatteryOp.discharge 5, BatteryOp.charge 100,
     BatteryOp.discharge 0]
    (by norm_num) (by norm_num) (by norm_num) (by norm_num) (by norm_num)
    (by norm_num) (by norm_num)
    (by intro op hop; fin_cases hop <;> norm_num [BatteryOp.arg])

/-! ## Claim C4: charge-then-discharge round trip

The claim says `charge(E)` then `discharge(E)` delivers `≈ E × efficiency`.
In the code, `discharge`'s argument is the energy to DELIVER: when neither
the capacity cap nor the floor binds, `discharge(E)` extracts `E/√η` and
delivers exactly `E`; the `(1−η)` loss is paid out of the battery's stored
energy, which ends `E·(1/√η − √η)` below its starting level. -/

/-- A battery state with ample headroom and floor margin, used to refute
the round-trip claim: capacity 100 kWh, efficiency 9/16 (one-way 3/4),
floor 0, 50 kWh stored. -/
def roundTripBattery : Battery ℚ :=
  { capacity_kwh := 100
    efficiency := 9/16
    min_soc := 0
    energy_kwh := 50
    min_energy_kwh := 0
    one_way_efficiency := 3/4 }

/-- Counterexample to C4: with 50 kWh stored, efficiency 9/16 and offered
energy `E = 8` neither the capacity cap nor the floor binds, yet
`charge(8)` followed by `discharge(8)` delivers exactly 8 kWh — not
`8 × 9/16 = 4.5` kWh; the gap is 3.5 kWh, far beyond floating tolerance. -/
theorem C4_round_trip_counterexample :
    8 * roundTripBattery.one_way_efficiency ≤
      roundTripBattery.capacity_kwh - roundTripBattery.energy_kwh ∧
    8 / roundTripBattery.one_way_efficiency ≤
      (roundTripBattery.charge 8).2.energy_kwh -
        roundTripBattery.min_energy_kwh ∧
    (((roundTripBattery.charge 8).2).discharge 8).1 = 8 ∧
    ¬ |(((roundTripBattery.charge 8).2).discharge 8).1 -
        8 * roundTripBattery.efficiency| ≤ 1 := by
  norm_num [roundTripBattery, Battery.charge, Battery.discharge]
  rw [abs_of_pos (by norm_num : (0:ℚ) < 7/2)]
  norm_num

/-- Claim C4 as amended: when neither the capacity cap nor the floor
binds, `charge(E)` then `discharge(E)` delivers exactly `E`; the round
trip's `(1−η)` loss appears as the battery's stored energy ending
`E·√η − E/√η` relative to its start (a net decrease for η < 1). -/
theorem C4_round_trip_amended {K : Type} [LinearOrderedField K]
    (b : Battery K) (E : K) (how : 0 < b.one_way_efficiency) (hE : 0 ≤ E)
    (hcap : E * b.one_way_efficiency ≤ b.capacity_kwh - b.energy_kwh)
    (hfloor : E / b.one_way_efficiency ≤
      b.energy_kwh + E * b.one_way_efficiency - b.min_energy_kwh) :
    (((b.charge E).2).discharge E).1 = E ∧
    (((b.charge E).2).discharge E).2.energy_kwh =
      b.energy_kwh + E * b.one_way_efficiency - E / b.one_way_efficiency := by
  have hstore : min (E * b.one_way_efficiency)
      (b.capacity_kwh - b.energy_kwh) = E * b.one_way_efficiency :=
    min_eq_left hcap
  have hchg : (b.charge E).2.energy_kwh =
      b.energy_kwh + E * b.one_way_efficiency := by
    simp only [Battery.charge]
    rw [hstore]
  have hone : (b.charge E).2.one_way_efficiency = b.one_way_efficiency := rfl
  have hminE : (b.charge E).2.min_energy_kwh = b.min_energy_kwh := rfl
  constructor
  · simp only [Battery.discharge, hone, hminE, hchg]
    rw [min_eq_left hfloor, div_mul_cancel₀ E (ne_of_gt how)]
  · simp only [Battery.discharge, hone, hminE, hchg]
    rw [min_eq_left hfloor]

/-- Witness for the amended C4 at `roundTripBattery` and `E = 8`. -/
theorem C4_round_trip_amended_witness :
    (((roundTripBattery.charge 8).2).discharge 8).1 = 8 ∧
    (((roundTripBattery.charge 8).2).discharge 8).2.energy_kwh =
      roundTripBattery.energy_kwh + 8 * roundTripBattery.one_way_efficiency -
        8 / roundTripBattery.one_way_efficiency :=
  C4_round_trip_amended roundTripBattery 8
    (by norm_num [roundTripBattery]) (by norm_num)
    (by norm_num [roundTripBattery])
    (by norm_num [roundTripBattery, Battery.charge])

/-! ## Claim C3: the `charge(10.0)` scenario

Claim C3 (from the spec's scenario) says `Battery(13.5, 0.9, 0.05)` at 50%
SoC has `charge(10.0)` store `10·√0.9 ≈ 9.4868` kWh and return
`consumed ≈ 9.4868` kWh "given that the available headroom is at least that
amount".  On the code: (a) at 50% of 13.5 kWh the headroom is 6.75 kWh,
which is BELOW `10·√0.9`, so the call stores only 6.75 kWh and returns
`6.75/√0.9 ≈ 7.115` kWh; and (b) even with ample headroom the return value
is `stored/√0.9 = 10.0` (the full offered energy), never `≈ 9.4868`. -/

/-- The scenario battery of claim C3: `Battery(13.5, 0.9, 0.05)` at its
initial 50% state of charge. -/
noncomputable def scenarioBattery : Battery ℝ := Battery.initSqrt 13.5 0.9 0.05

/-- The same configuration with an empty reservoir, giving the 13.5 kWh of
headroom the claim's proviso asks for. -/
noncomputable def scenarioBatteryEmpty : Battery ℝ :=
  { capacity_kwh := 13.5
    efficiency := 0.9
    min_soc := 0.05
    energy_kwh := 0
    min_energy_kwh := 0.675
    one_way_efficiency := Real.sqrt 0.9 }

theorem sqrt_ninety_percent_lb : (0.9481 : ℝ) < Real.sqrt 0.9 :=
  (Real.lt_sqrt (by norm_num)).mpr (by norm_num)

theorem sqrt_ninety_percent_ub : Real.sqrt 0.9 < (0.949 : ℝ) :=
  (Real.sqrt_lt' (by norm_num)).mpr (by norm_num)

/-- Counterexample to C3: at the claim's own scenario the headroom (6.75
kWh) is below `10·√0.9`, the stored amount is 6.75 kWh (not ≈ 9.4868), and
the returned `consumed` is at most 7.5 kWh — more than 1 kWh away from the
claimed ≈ 9.4868. -/
theorem C3_charge_scenario_counterexample :
    (scenarioBattery.capacity_kwh - scenarioBattery.energy_kwh <
      10 * Real.sqrt 0.9) ∧
    (scenarioBattery.charge 10).2.energy_kwh - scenarioBattery.energy_kwh =
      6.75 ∧
    ¬ |(scenarioBattery.charge 10).2.energy_kwh - scenarioBattery.energy_kwh -
        9.4868| ≤ 1 ∧
    (scenarioBattery.charge 10).1 ≤ 7.5 ∧
    ¬ |(scenarioBattery.charge 10).1 - 9.4868| ≤ 1 := by
  have hs0 : (0:ℝ) < Real.sqrt 0.9 := Real.sqrt_pos.mpr (by norm_num)
  have hs1 := sqrt_ninety_percent_lb
  have hspace : scenarioBattery.capacity_kwh - scenarioBattery.energy_kwh =
      6.75 := by
    simp only [scenarioBattery, Battery.initSqrt, Battery.init]
    norm_num
  have hmin : min (10 * Real.sqrt 0.9)
      (scenarioBattery.capacity_kwh - scenarioBattery.energy_kwh) = 6.75 := by
    rw [hspace, min_eq_right (by nlinarith)]
  have hstored : (scenarioBattery.charge 10).2.energy_kwh -
      scenarioBattery.energy_kwh = 6.75 := by
    simp only [Battery.charge]
    rw [show scenarioBattery.one_way_efficiency = Real.sqrt 0.9 from rfl, hmin]
    ring
  have hconsumed : (scenarioBattery.charge 10).1 = 6.75 / Real.sqrt 0.9 := by
    simp only [Battery.charge]
    rw [show scenarioBattery.one_way_efficiency = Real.sqrt 0.9 from rfl, hmin]
  have hc75 : (scenarioBattery.charge 10).1 ≤ 7.5 := by
    rw [hconsumed, div_le_iff hs0]
    nlinarith
  refine ⟨by rw [hspace]; nlinarith, hstored, ?_, hc75, ?_⟩
  · rw [hstored]
    intro habs
    have := (abs_le.mp habs).1
    norm_num at this
  · intro habs
    have := (abs_le.mp habs).1
    have : (8.4868 : ℝ) ≤ (scenarioBattery.charge 10).1 := by linarith
    linarith

/-- Claim C3 as amended: at the stated 50% start the headroom is only 6.75
kWh, so `charge(10.0)` stores 6.75 kWh (filling the battery to 13.5 kWh)
and returns `6.75/√0.9 ≈ 7.115`; when the headroom is at least `10·√0.9`
(empty reservoir), `charge(10.0)` stores `10·√0.9 ≈ 9.4868` kWh but
returns `consumed = 10.0` kWh, the full offered energy. -/
theorem C3_charge_scenario_amended :
    (scenarioBattery.charge 10).2.energy_kwh = 13.5 ∧
    (scenarioBattery.charge 10).1 = 6.75 / Real.sqrt 0.9 ∧
    7.11 < (scenarioBattery.charge 10).1 ∧ (scenarioBattery.charge 10).1 < 7.12 ∧
    (scenarioBatteryEmpty.charge 10).2.energy_kwh = 10 * Real.sqrt 0.9 ∧
    9.48 < 10 * Real.sqrt 0.9 ∧ 10 * Real.sqrt 0.9 < 9.49 ∧
    (scenarioBatteryEmpty.charge 10).1 = 10 := by
  have hs0 : (0:ℝ) < Real.sqrt 0.9 := Real.sqrt_pos.mpr (by norm_num)
  have hs1 := sqrt_ninety_percent_lb
  have hs2 := sqrt_ninety_percent_ub
  have hspace : scenarioBattery.capacity_kwh - scenarioBattery.energy_kwh =
      6.75 := by
    simp only [scenarioBattery, Battery.initSqrt, Battery.init]
    norm_num
  have hmin : min (10 * Real.sqrt 0.9)
      (scenarioBattery.capacity_kwh - scenarioBattery.energy_kwh) = 6.75 := by
    rw [hspace, min_eq_right (by nlinarith)]
  have hen : scenarioBattery.energy_kwh = 6.75 := by
    simp only [scenarioBattery, Battery.initSqrt, Battery.init]
    norm_num
  have hconsumed : (scenarioBattery.charge 10).1 = 6.75 / Real.sqrt 0.9 := by
    simp only [Battery.charge]
    rw [show scenarioBattery.one_way_efficiency = Real.sqrt 0.9 from rfl, hmin]
  have hminE : min (10 * Real.sqrt 0.9)
      (scenarioBatteryEmpty.capacity_kwh - scenarioBatteryEmpty.energy_kwh) =
      10 * Real.sqrt 0.9 := by
    rw [show scenarioBatteryEmpty.capacity_kwh - scenarioBatteryEmpty.energy_kwh
        = (13.5:ℝ) from by simp [scenarioBatteryEmpty]]
    exact min_eq_left (by nlinarith)
  refine ⟨?_, hconsumed, ?_, ?_, ?_, by nlinarith, by nlinarith, ?_⟩
  · simp only [Battery.charge]
    rw [show scenarioBattery.one_way_efficiency = Real.sqrt 0.9 from rfl, hmin,
      hen]
    norm_num
  · rw [hconsumed, lt_div_iff hs0]
    nlinarith
  · rw [hconsumed, div_lt_iff hs0]
    nlinarith
  · simp only [Battery.charge]
    rw [show scenarioBatteryEmpty.one_way_efficiency = Real.sqrt 0.9 from rfl,
      hminE]
    simp [scenarioBatteryEmpty]
  · simp only [Battery.charge]
    rw [show scenarioBatteryEmpty.one_way_efficiency = Real.sqrt 0.9 from rfl,
      hminE]
    exact mul_div_cancel_right₀ 10 (ne_of_gt hs0)

/-! ## Claim C1: flow conservation bounds for all three strategies

Pre-rounding, each strategy's flows satisfy the two sums EXACTLY
(`solar_to_load + solar_to_battery + solar_to_grid + curtailed = solar_kw`
and `solar_to_load + battery_to_load + grid_to_load = load_kw`); the
6-decimal rounding of the seven output fields perturbs each sum by at most
`4 × 5·10⁻⁷ = 2·10⁻⁶`. -/

/-- Flow conservation for `_load_priority`: the solar-side sum is at most
the solar input and the load-side sum at least the load demand, up to the
6-decimal rounding tolerance. -/
theorem loadPriority_sums {K : Type} [LinearOrderedField K] [FloorRing K]
    (solar_kw load_kw : K) (b : Battery K) (g : Grid K) (dt : K)
    (hdt : 0 < dt) (how : 0 < b.one_way_efficiency) :
    ((loadPriority solar_kw load_kw b g dt).1).solar_to_load +
      ((loadPriority solar_kw load_kw b g dt).1).solar_to_battery +
      ((loadPriority solar_kw load_kw b g dt).1).solar_to_grid +
      ((loadPriority solar_kw load_kw b g dt).1).curtailed ≤
      solar_kw + 2/1000000 ∧
    load_kw - 2/1000000 ≤
      ((loadPriority solar_kw load_kw b g dt).1).solar_to_load +
      ((loadPriority solar_kw load_kw b g dt).1).battery_to_load +
      ((loadPriority solar_kw load_kw b g dt).1).grid_to_load := by
  have hdt' : dt ≠ 0 := ne_of_gt hdt
  have hch : (b.charge ((solar_kw - load_kw) * dt)).1 ≤ (solar_kw - load_kw) * dt :=
    charge_fst_le b _ how
  have key : (b.charge ((solar_kw - load_kw) * dt)).1 / dt +
      ((solar_kw - load_kw) * dt - (b.charge ((solar_kw - load_kw) * dt)).1) / dt
      = solar_kw - load_kw := by
    rw [div_add_div_same]
    field_simp
  have he1 : 0 ≤ ((solar_kw - load_kw) * dt -
      (b.charge ((solar_kw - load_kw) * dt)).1) / dt :=
    div_nonneg (by linarith) (le_of_lt hdt)
  have hX : (g.export_energy (((solar_kw - load_kw) * dt -
      (b.charge ((solar_kw - load_kw) * dt)).1) / dt) dt).1 ≤
      ((solar_kw - load_kw) * dt -
        (b.charge ((solar_kw - load_kw) * dt)).1) / dt := min_le_left _ _
  have hdis2 : (b.discharge ((load_kw - solar_kw) * dt)).1 / dt ≤
      load_kw - solar_kw :=
    (div_le_iff hdt).mpr (discharge_fst_le b _ how)
  unfold loadPriority
  dsimp only
  split_ifs with h1 h2 h3 h4 h5 h6 h7 h8
  all_goals refine ⟨?_, ?_⟩
  all_goals dsimp only
  all_goals first
    | (apply sum_round6_le; linarith)
    | (apply le_sum_round6; linarith)

/-- Flow conservation for `_charge_priority`. -/
theorem chargePriority_sums {K : Type} [LinearOrderedField K] [FloorRing K]
    (solar_kw load_kw : K) (b : Battery K) (g : Grid K) (dt : K)
    (hdt : 0 < dt) (how : 0 < b.one_way_efficiency) :
    ((chargePriority solar_kw load_kw b g dt).1).solar_to_load +
      ((chargePriority solar_kw load_kw b g dt).1).solar_to_battery +
      ((chargePriority solar_kw load_kw b g dt).1).solar_to_grid +
      ((chargePriority solar_kw load_kw b g dt).1).curtailed ≤
      solar_kw + 2/1000000 ∧
    load_kw - 2/1000000 ≤
      ((chargePriority solar_kw load_kw b g dt).1).solar_to_load +
      ((chargePriority solar_kw load_kw b g dt).1).battery_to_load +
      ((chargePriority solar_kw load_kw b g dt).1).grid_to_load := by
  have hdt' : dt ≠ 0 := ne_of_gt hdt
  have hch : (b.charge (solar_kw * dt)).1 ≤ solar_kw * dt :=
    charge_fst_le b _ how
  have key : (b.charge (solar_kw * dt)).1 / dt +
      (solar_kw * dt - (b.charge (solar_kw * dt)).1) / dt = solar_kw := by
    rw [div_add_div_same]
    field_simp
  have he1 : 0 ≤ (solar_kw * dt - (b.charge (solar_kw * dt)).1) / dt :=
    div_nonneg (by linarith) (le_of_lt hdt)
  have hX : (g.export_energy ((solar_kw * dt - (b.charge (solar_kw * dt)).1) / dt
      - load_kw) dt).1 ≤
      (solar_kw * dt - (b.charge (solar_kw * dt)).1) / dt - load_kw :=
    min_le_left _ _
  have hdis2 : (b.discharge ((load_kw - solar_kw) * dt)).1 / dt ≤
      load_kw - solar_kw :=
    (div_le_iff hdt).mpr (discharge_fst_le b _ how)
  unfold chargePriority
  dsimp only
  split_ifs with h1 h2 h3 h4 h5 h6 h7 h8
  all_goals refine ⟨?_, ?_⟩
  all_goals dsimp only
  all_goals first
    | (apply sum_round6_le; linarith)
    | (apply le_sum_round6; linarith)

/-- Flow conservation for `_produce_priority`. -/
theorem producePriority_sums {K : Type} [LinearOrderedField K] [FloorRing K]
    (solar_kw load_kw : K) (b : Battery K) (g : Grid K) (dt : K)
    (hdt : 0 < dt) (how : 0 < b.one_way_efficiency) :
    ((producePriority solar_kw load_kw b g dt).1).solar_to_load +
      ((producePriority solar_kw load_kw b g dt).1).solar_to_battery +
      ((producePriority solar_kw load_kw b g dt).1).solar_to_grid +
      ((producePriority solar_kw load_kw b g dt).1).curtailed ≤
      solar_kw + 2/1000000 ∧
    load_kw - 2/1000000 ≤
      ((producePriority solar_kw load_kw b g dt).1).solar_to_load +
      ((producePriority solar_kw load_kw b g dt).1).battery_to_load +
      ((producePriority solar_kw load_kw b g dt).1).grid_to_load := by
  have hdt' : dt ≠ 0 := ne_of_gt hdt
  have hexp0 : (g.export_energy solar_kw dt).1 ≤ solar_kw := min_le_left _ _
  have hch : (b.charge ((solar_kw - (g.export_energy solar_kw dt).1) * dt)).1 ≤
      (solar_kw - (g.export_energy solar_kw dt).1) * dt :=
    charge_fst_le b _ how
  have key : (b.charge ((solar_kw - (g.export_energy solar_kw dt).1) * dt)).1 / dt +
      ((solar_kw - (g.export_energy solar_kw dt).1) * dt -
        (b.charge ((solar_kw - (g.export_energy solar_kw dt).1) * dt)).1) / dt =
      solar_kw - (g.export_energy solar_kw dt).1 := by
    rw [div_add_div_same]
    field_simp
  have he1 : 0 ≤ ((solar_kw - (g.export_energy solar_kw dt).1) * dt -
      (b.charge ((solar_kw - (g.export_energy solar_kw dt).1) * dt)).1) / dt :=
    div_nonneg (by linarith) (le_of_lt hdt)
  have hstlA1 : min (((solar_kw - (g.export_energy solar_kw dt).1) * dt -
      (b.charge ((solar_kw - (g.export_energy solar_kw dt).1) * dt)).1) / dt)
      load_kw ≤
      ((solar_kw - (g.export_energy solar_kw dt).1) * dt -
        (b.charge ((solar_kw - (g.export_energy solar_kw dt).1) * dt)).1) / dt :=
    min_le_left _ _
  have hstlA2 : min (((solar_kw - (g.export_energy solar_kw dt).1) * dt -
      (b.charge ((solar_kw - (g.export_energy solar_kw dt).1) * dt)).1) / dt)
      load_kw ≤ load_kw := min_le_right _ _
  have hd1 : ((b.charge ((solar_kw - (g.export_energy solar_kw dt).1) * dt)).2.discharge
      ((load_kw - min (((solar_kw - (g.export_energy solar_kw dt).1) * dt -
        (b.charge ((solar_kw - (g.export_energy solar_kw dt).1) * dt)).1) / dt)
        load_kw) * dt)).1 / dt ≤
      load_kw - min (((solar_kw - (g.export_energy solar_kw dt).1) * dt -
        (b.charge ((solar_kw - (g.export_energy solar_kw dt).1) * dt)).1) / dt)
        load_kw :=
    (div_le_iff hdt).mpr (discharge_fst_le _ _ how)
  have hd2 : ((b.charge ((solar_kw - (g.export_energy solar_kw dt).1) * dt)).2.discharge
      (load_kw * dt)).1 / dt ≤ load_kw :=
    (div_le_iff hdt).mpr (discharge_fst_le _ _ how)
  have hd3 : (b.discharge (load_kw * dt)).1 / dt ≤ load_kw :=
    (div_le_iff hdt).mpr (discharge_fst_le _ _ how)
  unfold producePriority
  dsimp only
  split_ifs with h1 h2 h3 h4 h5 h6 h7 h8 h9 h10
  all_goals refine ⟨?_, ?_⟩
  all_goals dsimp only
  all_goals first
    | (apply sum_round6_le; linarith)
    | (apply le_sum_round6; linarith)

/-- Claim C1: for every recognized strategy, non-negative solar and load,
positive time step, and battery state within bounds, the flow breakdown of
`distribute_energy` satisfies
`solar_to_load + solar_to_battery + solar_to_grid + curtailed ≤ solar_kw`
and `solar_to_load + battery_to_load + grid_to_load ≥ load_kw`, each up to
the 6-decimal rounding tolerance (every step fully serves load). -/
theorem C1_ems_flow_bounds {K : Type} [LinearOrderedField K] [FloorRing K]
    (strategy : String) (solar_kw load_kw : K) (b : Battery K) (g : Grid K)
    (dt : K) (f : Flows K)
    (hs : strategy ∈ ["LOAD_PRIORITY", "CHARGE_PRIORITY", "PRODUCE_PRIORITY"])
    (hsolar : 0 ≤ solar_kw) (hload : 0 ≤ load_kw) (hdt : 0 < dt)
    (how : 0 < b.one_way_efficiency)
    (hb1 : b.min_energy_kwh ≤ b.energy_kwh)
    (hb2 : b.energy_kwh ≤ b.capacity_kwh)
    (hf : (distribute_energy strategy solar_kw load_kw b g dt).1 = some f) :
    f.solar_to_load + f.solar_to_battery + f.solar_to_grid + f.curtailed ≤
      solar_kw + 2/1000000 ∧
    load_kw - 2/1000000 ≤
      f.solar_to_load + f.battery_to_load + f.grid_to_load := by
  simp only [List.mem_cons, List.not_mem_nil, or_false] at hs
  rcases hs with h | h | h
  · subst h
    rw [distribute_energy_load] at hf
    dsimp only at hf
    rw [Option.some.injEq] at hf
    subst hf
    exact loadPriority_sums solar_kw load_kw b g dt hdt how
  · subst h
    rw [distribute_energy_charge] at hf
    dsimp only at hf
    rw [Option.some.injEq] at hf
    subst hf
    exact chargePriority_sums solar_kw load_kw b g dt hdt how
  · subst h
    rw [distribute_energy_produce] at hf
    dsimp only at hf
    rw [Option.some.injEq] at hf
    subst hf
    exact producePriority_sums solar_kw load_kw b g dt hdt how

/-- Witness for C1: `PRODUCE_PRIORITY` at solar 25 kW, load 3 kW, export
limit 20 kW. -/
theorem C1_ems_flow_bounds_witness :
    ((producePriority (25:ℚ) 3 (Battery.init (27/2) (9/16) (1/20) (3/4))
        (Grid.init (3/400) (9/1000) 20) 1).1).solar_to_load +
      ((producePriority (25:ℚ) 3 (Battery.init (27/2) (9/16) (1/20) (3/4))
        (Grid.init (3/400) (9/1000) 20) 1).1).solar_to_battery +
      ((producePriority (25:ℚ) 3 (Battery.init (27/2) (9/16) (1/20) (3/4))
        (Grid.init (3/400) (9/1000) 20) 1).1).solar_to_grid +
      ((producePriority (25:ℚ) 3 (Battery.init (27/2) (9/16) (1/20) (3/4))
        (Grid.init (3/400) (9/1000) 20) 1).1).curtailed ≤ 25 + 2/1000000 ∧
    (3:ℚ) - 2/1000000 ≤
      ((producePriority (25:ℚ) 3 (Battery.init (27/2) (9/16) (1/20) (3/4))
        (Grid.init (3/400) (9/1000) 20) 1).1).solar_to_load +
      ((producePriority (25:ℚ) 3 (Battery.init (27/2) (9/16) (1/20) (3/4))
        (Grid.init (3/400) (9/1000) 20) 1).1).battery_to_load +
      ((producePriority (25:ℚ) 3 (Battery.init (27/2) (9/16) (1/20) (3/4))
        (Grid.init (3/400) (9/1000) 20) 1).1).grid_to_load :=
  C1_ems_flow_bounds "PRODUCE_PRIORITY" 25 3
    (Battery.init (27/2) (9/16) (1/20) (3/4)) (Grid.init (3/400) (9/1000) 20)
    1 _ (by decide) (by norm_num) (by norm_num) (by norm_num)
    (by norm_num [Battery.init]) (by norm_num [Battery.init])
    (by norm_num [Battery.init]) rfl

/-! ## Stochastic components and the simulation loop (`Simulation.py`)

`CloudCoverage`, `Load` and `Inverter` draw from Python's process-wide
seeded `random` module.  The generator is embedded as an explicit state of
type `R` threaded through every draw, with the four used primitives
(`random.random`, `random.uniform`, `random.randint`,
`random.choices(...)[0]`, the last returning the chosen index) bundled in
`RandGen`; claim C8 is about draw ORDER, which is independent of the
distributions the primitives realize. -/

/-- The pseudo-random primitives of Python's `random` module used by the
simulator, as explicit state transformers on a generator state `R`. -/
structure RandGen (K R : Type) where
  random : R → K × R
  uniform : K → K → R → K × R
  randint : ℤ → ℤ → R → ℤ × R
  choices : List K → R → ℕ × R

/-- `Load.__init__` configuration (`Load.py`). -/
structure Load (K : Type) where
  base_load_kw : K
  peak_hours_max_kw : K
  peak_hours_start : ℤ
  peak_hours_end : ℤ

/-- The fixed `_scheduled_events` table of `Load.__init__`:
`(hour, probability, min_kw, max_kw)`. -/
def scheduledEvents (K : Type) [LinearOrderedField K] : List (ℤ × K × K × K) :=
  [(6, 7/10, 1, 3/2), (7, 1/2, 4/5, 6/5), (8, 2/5, 4/5, 6/5),
   (12, 3/5, 1, 3/2), (22, 3/10, 1/2, 1)]

/-- `Load.generate(hour)` (`Load.py`): base load, plus a uniform draw in
the evening peak window, else per-event Bernoulli draws over the scheduled
events, plus 30%-probability additive noise.  Returns the demand and the
advanced generator state. -/
def Load.generate {K R : Type} [LinearOrderedField K] [FloorRing K]
    (ld : Load K) (rng : RandGen K R) (hour : K) (r : R) : K × R :=
  let hour_of_day : ℤ := Int.floor hour
  let total_demand := ld.base_load_kw
  let s1 : K × R :=
    if ld.peak_hours_start ≤ hour_of_day ∧ hour_of_day < ld.peak_hours_end then
      let u := rng.uniform 1 ld.peak_hours_max_kw r
      (total_demand + u.1, u.2)
    else
      (scheduledEvents K).foldl
        (fun acc ev =>
          if hour_of_day = ev.1 then
            let p := rng.random acc.2
            if p.1 < ev.2.1 then
              let u := rng.uniform ev.2.2.1 ev.2.2.2 p.2
              (acc.1 + u.1, u.2)
            else (acc.1, p.2)
          else acc)
        (total_demand, r)
  let n := rng.random s1.2
  if n.1 < 3/10 then
    let u := rng.uniform 0 (4/5) n.2
    (s1.1 + u.1, u.2)
  else (s1.1, n.2)

/-- The `Inverter` class state (`Inverter.py`). -/
structure Inverter (K : Type) where
  max_output_kw : K
  failure_rate : K
  min_failure_duration : ℤ
  max_failure_duration : ℤ
  is_failing : Bool
  failure_hours_remaining : K

/-- `Inverter.apply_limit(solar_generation)`. -/
def Inverter.apply_limit {K : Type} [LinearOrderedField K]
    (inv : Inverter K) (solar_generation : K) : K :=
  if inv.is_failing then 0 else min solar_generation inv.max_output_kw

/-- `Inverter.is_operational()`. -/
def Inverter.is_operational {K : Type} (inv : Inverter K) : Bool :=
  if inv.is_failing then false else true

/-- `Inverter.check_failure()` (call once per day): Bernoulli draw against
the daily failure rate; on failure an integer duration is drawn uniformly
from `[min_failure_duration, max_failure_duration]`. -/
def Inverter.check_failure {K R : Type} [LinearOrderedField K]
    (inv : Inverter K) (rng : RandGen K R) (r : R) : Inverter K × R :=
  if inv.is_failing then (inv, r)
  else
    let p := rng.random r
    if p.1 < inv.failure_rate then
      let d := rng.randint inv.min_failure_duration inv.max_failure_duration p.2
      ({ inv with is_failing := true, failure_hours_remaining := (d.1 : K) },
       d.2)
    else (inv, p.2)

/-- `Inverter.update(hours_passed)`: decay the remaining failure duration.
-/
def Inverter.update {K : Type} [LinearOrderedField K]
    (inv : Inverter K) (hours_passed : K) : Inverter K :=
  if inv.is_failing then
    let rem := inv.failure_hours_remaining - hours_passed
    if rem ≤ 0 then
      { inv with is_failing := false, failure_hours_remaining := 0 }
    else { inv with failure_hours_remaining := rem }
  else inv

/-- `CloudCoverage.PROBABILITIES` (`CloudCoverage.py`): seasonal category
weights for [Clear, Partly, Mostly, Overcast]; an invalid season is
rejected by `__init__`, embedded as the empty weight list. -/
def cloudProbabilities (K : Type) [LinearOrderedField K]
    (season : String) : List K :=
  if season = "spring" then [1/10, 3/10, 2/5, 1/5]
  else if season = "summer" then [1/20, 3/20, 3/10, 1/2]
  else if season = "fall" then [1/5, 2/5, 3/10, 1/10]
  else if season = "winter" then [3/10, 2/5, 1/5, 1/10]
  else []

/-- `CloudCoverage.COVERAGE_RANGES`. -/
def coverageRanges (K : Type) [LinearOrderedField K] : List (K × K) :=
  [(0, 1/5), (1/5, 3/5), (3/5, 4/5), (4/5, 9/10)]

/-- `CloudCoverage.get_daily_coverage()`: one categorical draw over the
season's weights, then one uniform draw inside the chosen range. -/
def getDailyCoverage {K R : Type} [LinearOrderedField K]
    (season : String) (rng : RandGen K R) (r : R) : K × R :=
  let lv := rng.choices (cloudProbabilities K season) r
  let range := (coverageRanges K).getD lv.1 (0, 0)
  rng.uniform range.1 range.2 lv.2

/-- The `SolarPanel` configuration (`SolarPanel.py`). -/
structure SolarPanel (K : Type) where
  peak_capacity_kw : K

/-- `SolarPanel.generate(hour_of_day, cloud_coverage)`: zero outside the
06:00-18:00 window, else a half-sine profile scaled by `1 - cloud`.
`sinProfile` abstracts the transcendental
`math.sin((hour - 6) * π / 12)`; it is pure and draws no randomness. -/
def SolarPanel.generate {K : Type} [LinearOrderedField K]
    (sp : SolarPanel K) (sinProfile : K → K)
    (hour_of_day cloud_coverage : K) : K :=
  if hour_of_day < 6 ∨ 18 ≤ hour_of_day then 0
  else sp.peak_capacity_kw * sinProfile hour_of_day * (1 - cloud_coverage)

/-- One logged row of `Simulation._simulation_loop`'s `hourly_data`,
restricted to the step-dependent physical fields (timestamps and SoC
logging are presentation). -/
structure StepRecord (K : Type) where
  hour : K
  solar_generated_kw : K
  solar_available_kw : K
  load_demand_kw : K
  cloud_coverage : K
  flows : Flows K

/-- The mutable state owned by the orchestrator across steps: battery,
grid, inverter, the cached daily cloud coverage, and the generator state. -/
structure SimState (K R : Type) where
  battery : Battery K
  grid : Grid K
  inverter : Inverter K
  cloud : K
  rng : R

/-- `Simulation._simulation_loop`, one iteration per fuel unit: compute the
hour from the absolute step index, generate solar (gated through the
inverter), draw the load, dispatch through the EMS, log the record, decay
the inverter, and on a day boundary run the failure check and redraw the
cloud coverage.  An EMS `ValueError` (unknown strategy) aborts the run
(`none`).  Daily summaries, events and prints are logging only and are
omitted; they touch neither the generator nor any component state. -/
def simLoop {K R : Type} [LinearOrderedField K] [FloorRing K]
    (rng : RandGen K R) (sinProfile : K → K) (strategy season : String)
    (panel : SolarPanel K) (ld : Load K)
    (time_step_minutes steps_per_day : ℕ) :
    ℕ → ℕ → SimState K R → Option (List (StepRecord K))
  | 0, _, _ => some []
  | fuel + 1, current_step, st =>
    let minutes_since_midnight := current_step * time_step_minutes % (24 * 60)
    let hour_of_day : K := (minutes_since_midnight : K) / 60
    let time_step_hours : K := (time_step_minutes : K) / 60
    let solar_available := panel.generate sinProfile hour_of_day st.cloud
    let solar_generated :=
      if st.inverter.is_operational then st.inverter.apply_limit solar_available
      else 0
    let lr := ld.generate rng hour_of_day st.rng
    let dres := distribute_energy strategy solar_generated lr.1 st.battery
      st.grid time_step_hours
    let inv1 := st.inverter.update time_step_hours
    let next_step := current_step + 1
    let st1 : SimState K R :=
      if next_step % steps_per_day = 0 ∧ 0 < next_step then
        let cf := inv1.check_failure rng lr.2
        let cc := getDailyCoverage season rng cf.2
        ⟨dres.2.1, dres.2.2, cf.1, cc.1, cc.2⟩
      else ⟨dres.2.1, dres.2.2, inv1, st.cloud, lr.2⟩
    Option.bind dres.1 (fun flows =>
      Option.map
        (fun rest =>
          (⟨hour_of_day, solar_generated, solar_available, lr.1, st.cloud,
            flows⟩ : StepRecord K) :: rest)
        (simLoop rng sinProfile strategy season panel ld time_step_minutes
          steps_per_day fuel next_step st1))

/-- `Simulation.run` restricted to the loop: seed state `r0`, one initial
cloud draw at construction time, then `total_steps` loop iterations. -/
def simRun {K R : Type} [LinearOrderedField K] [FloorRing K]
    (rng : RandGen K R) (sinProfile : K → K) (strategy season : String)
    (panel : SolarPanel K) (ld : Load K) (b : Battery K) (g : Grid K)
    (inv : Inverter K) (duration_days time_step_minutes : ℕ) (r0 : R) :
    Option (List (StepRecord K)) :=
  let total_steps := duration_days * 24 * 60 / time_step_minutes
  let steps_per_day := 24 * 60 / time_step_minutes
  let cc0 := getDailyCoverage season rng r0
  simLoop rng sinProfile strategy season panel ld time_step_minutes
    steps_per_day total_steps 0 ⟨b, g, inv, cc0.1, cc0.2⟩

/-- The weather/demand projection of a logged row: exactly the
`cloud_coverage`, `solar_available_kw` and `load_demand_kw` columns the
comparison tooling checks across strategies. -/
def projWeather {K : Type} (rec : StepRecord K) : K × K × K :=
  (rec.cloud_coverage, rec.solar_available_kw, rec.load_demand_kw)

/-! ## Claim C8: seed determinism across strategies -/

/-- Every recognized strategy produces a flow dictionary (no raise). -/
theorem distribute_fst_some {K : Type} [LinearOrderedField K] [FloorRing K]
    (strategy : String)
    (hs : strategy ∈ ["LOAD_PRIORITY", "CHARGE_PRIORITY", "PRODUCE_PRIORITY"])
    (solar_kw load_kw : K) (b : Battery K) (g : Grid K) (dt : K) :
    ∃ fl, (distribute_energy strategy solar_kw load_kw b g dt).1 = some fl := by
  simp only [List.mem_cons, List.not_mem_nil, or_false] at hs
  rcases hs with h | h | h <;> subst h <;> exact ⟨_, rfl⟩

/-- Consing records with equal projections preserves projected equality of
optional record lists. -/
theorem map_cons_eq {α β : Type} (f : α → β) (x1 x2 : α)
    (o1 o2 : Option (List α)) (hx : f x1 = f x2)
    (ho : Option.map (List.map f) o1 = Option.map (List.map f) o2) :
    Option.map (List.map f ∘ fun rest => x1 :: rest) o1 =
      Option.map (List.map f ∘ fun rest => x2 :: rest) o2 := by
  cases o1 with
  | none =>
    cases o2 with
    | none => rfl
    | some l2 => simp at ho
  | some l1 =>
    cases o2 with
    | none => simp at ho
    | some l2 =>
      simp only [Option.map_some', Option.some.injEq] at ho ⊢
      simp only [Function.comp_apply, List.map_cons, hx, ho]

/-- The heart of claim C8: two loop runs with recognized strategies that
agree on the inverter, cloud and generator state (battery and grid may
differ arbitrarily — they are the only state the EMS touches) produce
record sequences with identical weather/demand projections. -/
theorem simLoop_proj_eq {K R : Type} [LinearOrderedField K] [FloorRing K]
    (rng : RandGen K R) (sinProfile : K → K) (s1 s2 season : String)
    (panel : SolarPanel K) (ld : Load K) (tsm spd : ℕ)
    (hs1 : s1 ∈ ["LOAD_PRIORITY", "CHARGE_PRIORITY", "PRODUCE_PRIORITY"])
    (hs2 : s2 ∈ ["LOAD_PRIORITY", "CHARGE_PRIORITY", "PRODUCE_PRIORITY"]) :
    ∀ (fuel step : ℕ) (b1 b2 : Battery K) (g1 g2 : Grid K)
      (inv : Inverter K) (cloud : K) (r : R),
      Option.map (List.map projWeather)
        (simLoop rng sinProfile s1 season panel ld tsm spd fuel step
          ⟨b1, g1, inv, cloud, r⟩) =
      Option.map (List.map projWeather)
        (simLoop rng sinProfile s2 season panel ld tsm spd fuel step
          ⟨b2, g2, inv, cloud, r⟩) := by
  intro fuel
  induction fuel with
  | zero => intro step b1 b2 g1 g2 inv cloud r; rfl
  | succ fuel ih =>
    intro step b1 b2 g1 g2 inv cloud r
    simp only [simLoop]
    split_ifs with hop hday <;>
      (obtain ⟨f1, hf1⟩ := distribute_fst_some s1 hs1 _ _ b1 g1 _
       obtain ⟨f2, hf2⟩ := distribute_fst_some s2 hs2 _ _ b2 g2 _
       rw [hf1, hf2]
       simp only [Option.some_bind, Option.map_map]
       exact map_cons_eq projWeather _ _ _ _ rfl (ih _ _ _ _ _ _ _ _))

/-- `Option.map` preserves `isSome`. -/
theorem isSome_map_of {α β : Type} (f : α → β) (o : Option α)
    (h : o.isSome = true) : (Option.map f o).isSome = true := by
  cases o with
  | none => exact absurd h (by simp)
  | some a => rfl

/-- With a recognized strategy the loop never aborts. -/
theorem simLoop_isSome {K R : Type} [LinearOrderedField K] [FloorRing K]
    (rng : RandGen K R) (sinProfile : K → K) (strategy season : String)
    (panel : SolarPanel K) (ld : Load K) (tsm spd : ℕ)
    (hs : strategy ∈ ["LOAD_PRIORITY", "CHARGE_PRIORITY", "PRODUCE_PRIORITY"]) :
    ∀ (fuel step : ℕ) (st : SimState K R),
      (simLoop rng sinProfile strategy season panel ld tsm spd fuel step
        st).isSome = true := by
  intro fuel
  induction fuel with
  | zero => intro step st; rfl
  | succ fuel ih =>
    intro step st
    simp only [simLoop]
    obtain ⟨f1, hf1⟩ := distribute_fst_some strategy hs _ _ st.battery st.grid _
    rw [hf1]
    simp only [Option.some_bind]
    exact isSome_map_of _ _ (ih _ _)

/-- Claim C8: two complete runs from the same seed state and identical
configuration except the dispatch strategy both complete and produce
identical per-step sequences of `cloud_coverage`, `solar_available_kw` and
`load_demand_kw`: the pseudo-random draw order of CloudCoverage, Load and
Inverter is deterministic given the seed and independent of the strategy. -/
theorem C8_seed_determinism_across_strategies {K R : Type}
    [LinearOrderedField K] [FloorRing K]
    (rng : RandGen K R) (sinProfile : K → K) (s1 s2 season : String)
    (panel : SolarPanel K) (ld : Load K) (b : Battery K) (g : Grid K)
    (inv : Inverter K) (duration_days time_step_minutes : ℕ) (r0 : R)
    (hs1 : s1 ∈ ["LOAD_PRIORITY", "CHARGE_PRIORITY", "PRODUCE_PRIORITY"])
    (hs2 : s2 ∈ ["LOAD_PRIORITY", "CHARGE_PRIORITY", "PRODUCE_PRIORITY"]) :
    (simRun rng sinProfile s1 season panel ld b g inv duration_days
      time_step_minutes r0).isSome = true ∧
    (simRun rng sinProfile s2 season panel ld b g inv duration_days
      time_step_minutes r0).isSome = true ∧
    Option.map (List.map projWeather)
      (simRun rng sinProfile s1 season panel ld b g inv duration_days
        time_step_minutes r0) =
    Option.map (List.map projWeather)
      (simRun rng sinProfile s2 season panel ld b g inv duration_days
        time_step_minutes r0) := by
  refine ⟨?_, ?_, ?_⟩
  · exact simLoop_isSome rng sinProfile s1 season panel ld time_step_minutes
      ((24 * 60) / time_step_minutes) hs1 _ _ _
  · exact simLoop_isSome rng sinProfile s2 season panel ld time_step_minutes
      ((24 * 60) / time_step_minutes) hs2 _ _ _
  · exact simLoop_proj_eq rng sinProfile s1 s2 season panel ld
      time_step_minutes ((24 * 60) / time_step_minutes) hs1 hs2 _ _ b b g g
      inv _ _

/-- A concrete deterministic generator instance for the C8 witness. -/
def rngW : RandGen ℚ ℕ :=
  ⟨fun n => (1/2, n+1), fun a _ n => (a, n+1), fun a _ n => (a, n+1),
   fun _ n => (1, n+1)⟩

/-- Witness for C8: a 1-day, 720-minute-step run (2 steps) under
`LOAD_PRIORITY` versus `CHARGE_PRIORITY`. -/
theorem C8_seed_determinism_across_strategies_witness :
    (simRun rngW (fun _ => (1:ℚ)/2) "LOAD_PRIORITY" "summer" ⟨5⟩
      ⟨1/2, 3, 18, 21⟩ (Battery.init (27/2) (9/16) (1/20) (3/4))
      (Grid.init (3/400) (9/1000) 20) ⟨5, 1/200, 4, 72, false, 0⟩ 1 720
      0).isSome = true ∧
    (simRun rngW (fun _ => (1:ℚ)/2) "CHARGE_PRIORITY" "summer" ⟨5⟩
      ⟨1/2, 3, 18, 21⟩ (Battery.init (27/2) (9/16) (1/20) (3/4))
      (Grid.init (3/400) (9/1000) 20) ⟨5, 1/200, 4, 72, false, 0⟩ 1 720
      0).isSome = true ∧
    Option.map (List.map projWeather)
      (simRun rngW (fun _ => (1:ℚ)/2) "LOAD_PRIORITY" "summer" ⟨5⟩
        ⟨1/2, 3, 18, 21⟩ (Battery.init (27/2) (9/16) (1/20) (3/4))
        (Grid.init (3/400) (9/1000) 20) ⟨5, 1/200, 4, 72, false, 0⟩ 1 720 0) =
    Option.map (List.map projWeather)
      (simRun rngW (fun _ => (1:ℚ)/2) "CHARGE_PRIORITY" "summer" ⟨5⟩
        ⟨1/2, 3, 18, 21⟩ (Battery.init (27/2) (9/16) (1/20) (3/4))
        (Grid.init (3/400) (9/1000) 20) ⟨5, 1/200, 4, 72, false, 0⟩ 1 720 0) :=
  C8_seed_determinism_across_strategies rngW (fun _ => (1:ℚ)/2)
    "LOAD_PRIORITY" "CHARGE_PRIORITY" "summer" ⟨5⟩ ⟨1/2, 3, 18, 21⟩
    (Battery.init (27/2) (9/16) (1/20) (3/4)) (Grid.init (3/400) (9/1000) 20)
    ⟨5, 1/200, 4, 72, false, 0⟩ 1 720 0 (by decide) (by decide)

end GreenGrid
